import Mathlib

/-!
Shallow embedding of the job-orchestration core of the scanslator
repository: the shared status enum (`app/shared/status.py`), the
SQLAlchemy job store (`backend/orchestrator/app/storage.py`), the
orchestrator job routes (`backend/orchestrator/app/routes/jobs.py`),
and the worker consume/retry/dead-letter logic
(`backend/worker/runner.py`).

Timestamps (`datetime.utcnow()`) are abstracted as natural numbers and
passed explicitly as a `now` parameter to each store operation.  Float
arithmetic for backoff delays is modelled over `ℚ` (all values involved
in the spec — 5, 10, 20, 60 — are exact in binary floating point, so no
rounding behaviour is lost for the properties considered here).
-/

namespace Scanslator

/-- `JobStatus` from `app/shared/status.py`. -/
inductive JobStatus
  | PENDING
  | PROCESSING
  | IMAGE_CONVERSION
  | OCR_PROCESSING
  | TRANSLATION_PROCESSING
  | REFINEMENT_PROCESSING
  | PDF_GENERATION
  | COMPLETE
  | FAILED
  | CANCELLED
  deriving DecidableEq, Repr

/-- `STATUS_SUMMARY` from `app/shared/status.py`.  The Python dict has an
entry for every enum member, so `.get` never returns `None`; accordingly we
embed it as a total function. -/
def STATUS_SUMMARY : JobStatus → String
  | .PENDING => "Job accepted by orchestrator"
  | .PROCESSING => "Preparing translation job"
  | .IMAGE_CONVERSION => "Converting pages to images"
  | .OCR_PROCESSING => "Extracting Lao text"
  | .TRANSLATION_PROCESSING => "Translating to Korean"
  | .REFINEMENT_PROCESSING => "Refining translation output"
  | .PDF_GENERATION => "Rendering downloadable artefacts"
  | .COMPLETE => "Translation finished"
  | .FAILED => "Job failed"
  | .CANCELLED => "Job cancelled"

/-- Membership in the set `\x7bJobStatus.COMPLETE, JobStatus.FAILED,
JobStatus.CANCELLED\x7d`, written out at `runner.py:338` (inside
`_status_detail`) and at `routes/jobs.py:90` (inside `get_job_result`). -/
def isTerminal (st : JobStatus) : Bool :=
  st == .COMPLETE || st == .FAILED || st == .CANCELLED

/-! ## Job store (`backend/orchestrator/app/storage.py`)

Jobs are rows of the `jobs` table (primary key `job_id`), events are rows
of the `job_events` table with an autoincrement integer primary key `id`.
The store state carries both tables plus the next autoincrement value. -/

/-- A row of `job_events` (`JobEventModel`). -/
structure StoredEvent where
  id : Nat
  job_id : String
  status : JobStatus
  detail : Option String
  created_at : Nat
  deriving DecidableEq, Repr

/-- A row of `jobs` (`JobModel` / `OrchestratorJob`).  The JSON `artefacts`
column is a string-to-string map embedded as an insertion-ordered
association list (Python dict semantics). -/
structure StoredJob where
  job_id : String
  status : JobStatus
  detail : Option String
  submitted_at : Nat
  updated_at : Nat
  artefacts : List (String × String)
  deriving DecidableEq, Repr

/-- The two tables plus the `job_events.id` autoincrement counter. -/
structure StoreState where
  jobs : List StoredJob
  events : List StoredEvent
  next_event_id : Nat
  deriving DecidableEq, Repr

/-- Python dict assignment `d[k] = v` on an insertion-ordered association
list: an existing key is updated in place, a new key is appended. -/
def dictSet (m : List (String × String)) (k v : String) : List (String × String) :=
  if m.any (fun p => p.1 == k) then
    m.map (fun p => if p.1 == k then (k, v) else p)
  else m ++ [(k, v)]

/-- Python `d.get(k)` on an association list. -/
def dictGet (m : List (String × String)) (k : String) : Option String :=
  (m.find? (fun p => p.1 == k)).map (fun p => p.2)

/-- `session.get(JobModel, job_id)`: primary-key lookup in the `jobs`
table. -/
def getJob (s : StoreState) (job_id : String) : Option StoredJob :=
  s.jobs.find? (fun j => j.job_id == job_id)

/-- `SQLAlchemyJobStore._append_event`: inserts one `job_events` row with
the next autoincrement id. -/
def appendEvent (s : StoreState) (job_id : String) (status : JobStatus)
    (detail : Option String) (created_at : Nat) : StoreState :=
  { s with
    events := s.events ++ [⟨s.next_event_id, job_id, status, detail, created_at⟩]
    next_event_id := s.next_event_id + 1 }

/-- `SQLAlchemyJobStore.create`: inserts the job row and its creation event
in one transaction; a duplicate `job_id` violates the primary key
(`Conflict`), modelled as `none`. -/
def create (s : StoreState) (job : StoredJob) : Option StoreState :=
  if s.jobs.any (fun j => j.job_id == job.job_id) then none
  else some (appendEvent { s with jobs := s.jobs ++ [job] }
    job.job_id job.status job.detail job.submitted_at)

/-- `SQLAlchemyJobStore.update_status`: looks up the job by primary key;
if absent returns `None` without touching the state; otherwise sets
status/detail/`updated_at := now`, appends one event carrying the same
status/detail with `created_at := now`, and returns the post-update job. -/
def update_status (s : StoreState) (now : Nat) (job_id : String)
    (status : JobStatus) (detail : Option String) :
    Option StoredJob × StoreState :=
  match getJob s job_id with
  | none => (none, s)
  | some j =>
      let j2 : StoredJob := { j with status := status, detail := detail, updated_at := now }
      let s1 : StoreState :=
        { s with jobs := s.jobs.map (fun x => if x.job_id == job_id then j2 else x) }
      (some j2, appendEvent s1 job_id status detail now)

/-- `SQLAlchemyJobStore.set_artefact`: looks up the job by primary key; if
absent returns `None`; otherwise merges one key into the artefacts map,
sets `updated_at := now`, and returns the post-update job.  No event is
appended. -/
def set_artefact (s : StoreState) (now : Nat) (job_id name uri : String) :
    Option StoredJob × StoreState :=
  match getJob s job_id with
  | none => (none, s)
  | some j =>
      let j2 : StoredJob := { j with artefacts := dictSet j.artefacts name uri, updated_at := now }
      (some j2, { s with jobs := s.jobs.map (fun x => if x.job_id == job_id then j2 else x) })

/-- The `ORDER BY created_at ASC, id ASC` comparison used by
`SQLAlchemyJobStore.history`: lexicographic on `(created_at, id)`. -/
def evLe (a b : StoredEvent) : Prop :=
  a.created_at < b.created_at ∨ (a.created_at = b.created_at ∧ a.id ≤ b.id)

instance : DecidableRel evLe := fun a b =>
  inferInstanceAs (Decidable (_ ∨ _))

instance : IsTotal StoredEvent evLe :=
  ⟨fun a b => by
    unfold evLe
    omega⟩

instance : IsTrans StoredEvent evLe :=
  ⟨fun a b c hab hbc => by
    unfold evLe at *
    omega⟩

/-- `SQLAlchemyJobStore.history`: the `job_events` rows of one job,
ordered by `(created_at, id)` ascending.  (The Python code then projects
each row to a `JobEventRecord` dropping the `id`; we keep the full row so
the ordering key remains visible.) -/
def history (s : StoreState) (job_id : String) : List StoredEvent :=
  List.insertionSort evLe (s.events.filter (fun e => e.job_id == job_id))

/-! ## Orchestrator routes (`backend/orchestrator/app/routes/jobs.py`)

Handlers either raise an `HTTPException(status_code, detail)` or return a
response body; we embed that as a sum. -/

/-- Body of `schemas.JobResultResponse`. -/
structure JobResultBody where
  job_id : String
  status : JobStatus
  translated_text_uri : Option String
  artefacts : List (String × String)
  deriving DecidableEq, Repr

/-- Outcome of `get_job_result`: an `HTTPException` with its status code
and detail, or a 200 response body. -/
inductive ResultOutcome
  | httpError (status_code : Nat) (detail : String)
  | ok (body : JobResultBody)
  deriving DecidableEq, Repr

/-- `get_job_result` (`routes/jobs.py:84-97`): 404 when the job does not
exist, 409 when its status is outside
`\x7bCOMPLETE, FAILED, CANCELLED\x7d`, otherwise the artefact map with
`translated_text_uri := artefacts.get("translated_text")`. -/
def get_job_result (s : StoreState) (job_id : String) : ResultOutcome :=
  match getJob s job_id with
  | none => .httpError 404 "Job not found"
  | some job =>
      if ¬ isTerminal job.status then .httpError 409 "Job not finished"
      else .ok ⟨job.job_id, job.status, dictGet job.artefacts "translated_text", job.artefacts⟩

/-- Outcome of the worker status-patch endpoint `update_job_status`. -/
inductive PatchOutcome
  | httpError (status_code : Nat) (detail : String)
  | updated
  deriving DecidableEq, Repr

/-- `update_job_status` (`routes/jobs.py:137-146`), the `POST /jobs/status`
worker callback: `store.update_status`; 404 when it returns `None`;
otherwise `store.set_artefact` for each artefact entry in payload order
(`if payload.artefacts:` skips an empty map, which folding over `[]`
reproduces). -/
def update_job_status (s : StoreState) (now : Nat) (job_id : String)
    (status : JobStatus) (detail : Option String)
    (artefacts : List (String × String)) : PatchOutcome × StoreState :=
  match update_status s now job_id status detail with
  | (none, s1) => (.httpError 404 "Job not found", s1)
  | (some _, s1) =>
      (.updated, artefacts.foldl (fun st p => (set_artefact st now job_id p.1 p.2).2) s1)

/-! ## Worker (`backend/worker/runner.py`)

`handle_job` reads exactly three payload keys (`job_id`, `source_type`,
`source_uri`); the payload is embedded as that projection, each key an
optional string (absent = key missing or JSON `null`; the empty string is
Python-falsy like an absent value and is handled explicitly below).
`attempts` is a Python `int`, embedded as `ℤ` (the decoder `_to_message`
can in principle produce negative values).

`StatusReporter.update` performs a synchronous HTTP POST and calls
`response.raise_for_status()`, so each report call either succeeds or
raises.  `handle_job`'s behaviour therefore depends on which of its
report calls raise; we parameterise it by `rFail : Nat → Option String`
giving, for the n-th `reporter.update` call made directly by `handle_job`
(0-based, in program order), `none` when the call succeeds and
`some errText` when it raises an exception rendering as `errText`.
The Processor invocation (`pipeline.run` via `asyncio.to_thread`) is an
external collaborator; its outcome is a parameter (`PipelineResult`).
Intermediate callback reports issued from inside the pipeline thread are
part of that collaborator's behaviour: a callback report that raises makes
`run_pipeline` itself raise, i.e. surfaces as `PipelineResult.failure`. -/

/-- Worker retry/backoff configuration (`runner.py:85-88`), with the
environment defaults. -/
structure WorkerConfig where
  max_retries : Nat
  backoff_base : ℚ
  backoff_multiplier : ℚ
  backoff_max : ℚ
  deriving DecidableEq, Repr

/-- The environment defaults: `MAX_RETRIES=3`, `BACKOFF_BASE_SECONDS=5`,
`BACKOFF_MULTIPLIER=2`, `BACKOFF_MAX_SECONDS=60`. -/
def defaultWorkerConfig : WorkerConfig :=
  { max_retries := 3, backoff_base := 5, backoff_multiplier := 2, backoff_max := 60 }

/-- `_calculate_backoff` (`runner.py:346-348`):
`min(BASE * MULTIPLIER ** max(0, attempt - 1), MAX)`.  Python's binary
`min(a, b)` is `a if a <= b else b`, written out so that it evaluates by
kernel reduction. -/
def calculate_backoff (cfg : WorkerConfig) (attempt : ℤ) : ℚ :=
  let delay := cfg.backoff_base * cfg.backoff_multiplier ^ (max 0 (attempt - 1)).toNat
  if delay ≤ cfg.backoff_max then delay else cfg.backoff_max

/-- `_status_detail` (`runner.py:334-340`).  `STATUS_SUMMARY.get(status)`
always yields a non-empty string (the dict is total over the enum), but we
keep the `if not base` guard of the source. -/
def status_detail (status : JobStatus) (attempt : ℤ) : Option String :=
  let base := STATUS_SUMMARY status
  if base = "" then none
  else if attempt > 1 ∧ ¬ isTerminal status then
    some ("Attempt " ++ toString attempt ++ ": " ++ base)
  else some base

/-- The worker-side view of a queue message: `message_id`, the three
payload keys `handle_job` reads, and the `attempts` counter. -/
structure QueueMessage where
  message_id : String
  job_id : Option String
  source_type : Option String
  source_uri : Option String
  attempts : ℤ
  deriving DecidableEq, Repr

/-- Python truthiness of an optional string payload value
(`if payload.get(k)` / `if not source_uri`). -/
def truthy (v : Option String) : Bool :=
  match v with
  | some s => s ≠ ""
  | none => false

/-- `str(payload.get(k)) if payload.get(k) else dflt`. -/
def strOr (v : Option String) (dflt : String) : String :=
  match v with
  | some s => if s = "" then dflt else s
  | none => dflt

/-- Outcome of the Processor call (`pipeline.run` wrapped in
`run_pipeline`): success carries the translated text and the
`json.dumps`-serialised original-images list; failure carries `str(exc)`. -/
inductive PipelineResult
  | success (translated_text : String) (original_images_json : String)
  | failure (err : String)
  deriving DecidableEq, Repr

/-- The single queue operation `handle_job` performs on its message. -/
inductive QueueAction
  | ack
  | requeue (next_attempt : ℤ) (delay : ℚ)
  | deadLetter (detail : Option String)
  deriving DecidableEq, Repr

/-- One successfully delivered `reporter.update` call (the JSON body posted
to `/jobs/status`; `artefacts or \x7b\x7d` makes the artefact map total). -/
structure Report where
  job_id : String
  status : JobStatus
  detail : Option String
  artefacts : List (String × String)
  deriving DecidableEq, Repr

/-- Observable outcome of one `handle_job` run: the reports that were
delivered, the queue action that was performed (if any), whether the
Processor was invoked, and whether an exception escaped `handle_job`
(there is no handler in `worker_loop`, so an escaped exception crashes
the consume loop). -/
structure HandleOutcome where
  reports : List Report
  action : Option QueueAction
  invoked_pipeline : Bool
  escaped : Bool
  deriving DecidableEq, Repr

/-- The `except Exception` branch of `handle_job` (`runner.py:398-412`):
`next_attempt = attempts + 1`; past `MAX_RETRIES` report `FAILED` and
dead-letter, otherwise report a retry detail and requeue with the backoff
delay.  `acc` holds the reports already delivered, `k` the index of the
next `reporter.update` call. -/
def handleFailure (cfg : WorkerConfig) (rFail : Nat → Option String)
    (msg : QueueMessage) (job_id : String) (err : String)
    (acc : List Report) (k : Nat) : HandleOutcome :=
  let next_attempt := msg.attempts + 1
  if next_attempt > (cfg.max_retries : ℤ) then
    match rFail k with
    | some _ => ⟨acc, none, true, true⟩
    | none =>
        ⟨acc ++ [⟨job_id, .FAILED, some err, []⟩],
          some (.deadLetter (some err)), true, false⟩
  else
    let delay := calculate_backoff cfg next_attempt
    let retryDetail :=
      "Retrying (attempt " ++ toString next_attempt ++ "/" ++ toString cfg.max_retries
        ++ ") in " ++ toString delay ++ "s: " ++ err
    match rFail k with
    | some _ => ⟨acc, none, true, true⟩
    | none =>
        ⟨acc ++ [⟨job_id, .PROCESSING, some retryDetail, []⟩],
          some (.requeue next_attempt delay), true, false⟩

/-- `handle_job` (`runner.py:351-412`).  Control flow of the source:

1. missing/falsy `source_uri`: report `FAILED "Missing source_uri"` (this
   call is outside any `try`, so if it raises the exception escapes) and
   dead-letter; the Processor is never invoked;
2. otherwise report `PROCESSING` with the attempt-aware detail (also
   outside any `try`: a raise escapes) and invoke the Processor inside
   `try`;
3. on Processor success, report `COMPLETE` with the artefacts *inside* the
   `try` — if that report raises, the `except` branch treats it like a
   Processor failure — then `ack`;
4. on failure, the `except` branch (`handleFailure`; its report call is
   outside the `try`, so a raise there escapes).

(The retry-detail string formats the delay with Python's `"%.1f"`; we
render the rational directly — no claim inspects that string.) -/
def handle_job (cfg : WorkerConfig) (pipeline : PipelineResult)
    (rFail : Nat → Option String) (msg : QueueMessage) : HandleOutcome :=
  let job_id := strOr msg.job_id "unknown"
  if ¬ truthy msg.source_uri then
    match rFail 0 with
    | some _ => ⟨[], none, false, true⟩
    | none =>
        ⟨[⟨job_id, .FAILED, some "Missing source_uri", []⟩],
          some (.deadLetter (some "Missing source_uri")), false, false⟩
  else
    let attempt_number := msg.attempts + 1
    match rFail 0 with
    | some _ => ⟨[], none, false, true⟩
    | none =>
        let r0 : List Report :=
          [⟨job_id, .PROCESSING, status_detail .PROCESSING attempt_number, []⟩]
        match pipeline with
        | .failure err => handleFailure cfg rFail msg job_id err r0 1
        | .success t imgs =>
            match rFail 1 with
            | some e => handleFailure cfg rFail msg job_id e r0 2
            | none =>
                let artefacts : List (String × String) :=
                  [("translated_text", t), ("original_images", imgs)]
                ⟨r0 ++ [⟨job_id, .COMPLETE, status_detail .COMPLETE attempt_number, artefacts⟩],
                  some .ack, true, false⟩

/-- A reporter environment in which every status report succeeds. -/
def reportOk : Nat → Option String := fun _ => none

/-! ## Stream-entry decoding (`RedisStreamQueueConsumer._to_message`,
`runner.py:158-169`)

`fields` is the Redis hash of the stream entry (`decode_responses=True`,
so values are strings).  `json.loads` and `int` are stdlib collaborators:
we parameterise by a payload parser `jsonLoads : String → Option α`
(returning `none` exactly when `json.loads` would raise
`JSONDecodeError`) with `emptyObj : α` standing for the empty JSON object
`\x7b\x7d`, and an integer parser `toInt : String → Option ℤ` (returning
`none` exactly when `int(...)` would raise). -/

/-- The field names `PAYLOAD_FIELD` / `ATTEMPT_FIELD` (`runner.py:93-94`). -/
def PAYLOAD_FIELD : String := "payload"

/-- See `PAYLOAD_FIELD`. -/
def ATTEMPT_FIELD : String := "attempts"

/-- The `QueueMessage` produced by `_to_message`, before the worker-side
projection: `payload` is whatever `json.loads` produced. -/
structure RawMessage (α : Type) where
  message_id : String
  payload : α
  attempts : ℤ
  deriving DecidableEq, Repr

/-- `_to_message` (`runner.py:158-169`): a missing `payload` field defaults
to the raw string `"\x7b\x7d"`, a `JSONDecodeError` falls back to the
empty object; a missing `attempts` field defaults to `"0"`, an unparsable
integer falls back to `0`.  Total by construction: no input raises. -/
def to_message {α : Type} (jsonLoads : String → Option α) (emptyObj : α)
    (toInt : String → Option ℤ) (entry_id : String)
    (fields : String → Option String) : RawMessage α :=
  let payload_raw := (fields PAYLOAD_FIELD).getD "\x7b\x7d"
  let attempts_raw := (fields ATTEMPT_FIELD).getD "0"
  let payload := (jsonLoads payload_raw).getD emptyObj
  let attempts := (toInt attempts_raw).getD 0
  ⟨entry_id, payload, attempts⟩

/-! ## Concrete states and messages used in closed theorems and witnesses -/

/-- A store holding one job `j1` that has reached `COMPLETE` (a creation
event at time 0 and a `COMPLETE` event at time 5). -/
def completeJobState : StoreState :=
  { jobs := [⟨"j1", .COMPLETE, some "Translation finished", 0, 5, [("translated_text", "hi")]⟩],
    events := [⟨0, "j1", .PENDING, none, 0⟩, ⟨1, "j1", .COMPLETE, some "Translation finished", 5⟩],
    next_event_id := 2 }

/-- A well-formed first-delivery message for job `j1`. -/
def sampleMsg : QueueMessage := ⟨"m1", some "j1", some "pdf", some "/tmp/x.pdf", 0⟩

/-! ## Shared lemmas about primary-key lookup and dict assignment -/

/-- Replacing the row matching a primary key in a table yields the
replacement row on the next primary-key lookup (provided some row
matched and the replacement still carries the key). -/
theorem find?_map_replace (l : List StoredJob) (p : String) (j2 : StoredJob)
    (h2 : (j2.job_id == p) = true)
    (hs : (l.find? (fun x => x.job_id == p)).isSome = true) :
    (l.map (fun x => if x.job_id == p then j2 else x)).find? (fun x => x.job_id == p)
      = some j2 := by
  induction l with
  | nil => simp at hs
  | cons a t ih =>
    by_cases ha : (a.job_id == p) = true
    · simp only [List.map_cons, if_pos ha]
      exact List.find?_cons_of_pos _ h2
    · simp only [List.map_cons, if_neg ha]
      have hstep : (a :: t.map (fun x => if x.job_id == p then j2 else x)).find?
          (fun x => x.job_id == p)
          = (t.map (fun x => if x.job_id == p then j2 else x)).find?
            (fun x => x.job_id == p) :=
        List.find?_cons_of_neg _ ha
      rw [hstep]
      apply ih
      have hstep2 : (a :: t).find? (fun x => x.job_id == p)
          = t.find? (fun x => x.job_id == p) :=
        List.find?_cons_of_neg _ ha
      rw [hstep2] at hs
      exact hs

/-- In-place dict assignment: looking up the assigned key after the
element-wise replacement finds the new pair (when the key was present). -/
theorem find?_mapSet_eq (m : List (String × String)) (k v : String) :
    (m.map (fun p => if p.1 == k then (k, v) else p)).find? (fun p => p.1 == k)
      = if (m.any fun p => p.1 == k) then some (k, v) else none := by
  induction m with
  | nil => rfl
  | cons a t ih =>
    by_cases hak : (a.1 == k) = true
    · simp only [List.map_cons, if_pos hak, List.any_cons, hak, Bool.true_or, if_pos]
      exact List.find?_cons_of_pos _ (by simp)
    · have hf : (a.1 == k) = false := by simpa using hak
      rw [List.map_cons, if_neg hak]
      have hstep : ((a :: t.map (fun p => if p.1 == k then (k, v) else p)).find?
          (fun p => p.1 == k))
          = (t.map (fun p => if p.1 == k then (k, v) else p)).find? (fun p => p.1 == k) :=
        List.find?_cons_of_neg _ hak
      rw [hstep, ih, List.any_cons, hf, Bool.false_or]

/-- In-place dict assignment of key `k` leaves lookups of any other key
unchanged. -/
theorem find?_mapSet_ne (m : List (String × String)) (k v k' : String) (hne : k' ≠ k) :
    (m.map (fun p => if p.1 == k then (k, v) else p)).find? (fun p => p.1 == k')
      = m.find? (fun p => p.1 == k') := by
  induction m with
  | nil => rfl
  | cons a t ih =>
    by_cases hak : (a.1 == k) = true
    · have ha1 : a.1 = k := by simpa using hak
      simp only [List.map_cons, if_pos hak]
      have h1 : (((k, v) : String × String) :: t.map (fun p => if p.1 == k then (k, v) else p)).find?
          (fun p => p.1 == k')
          = (t.map (fun p => if p.1 == k then (k, v) else p)).find? (fun p => p.1 == k') :=
        List.find?_cons_of_neg _ (by simp [Ne.symm hne])
      have h2 : ((a :: t).find? (fun p => p.1 == k'))
          = t.find? (fun p => p.1 == k') :=
        List.find?_cons_of_neg _ (by simp [ha1, Ne.symm hne])
      rw [h1, h2]
      exact ih
    · simp only [List.map_cons, if_neg hak]
      by_cases hak' : (a.1 == k') = true
      · have h1 : ((a :: t.map (fun p => if p.1 == k then (k, v) else p)).find?
            (fun p => p.1 == k')) = some a :=
          List.find?_cons_of_pos _ hak'
        have h2 : ((a :: t).find? (fun p => p.1 == k')) = some a :=
          List.find?_cons_of_pos _ hak'
        rw [h1, h2]
      · have h1 : ((a :: t.map (fun p => if p.1 == k then (k, v) else p)).find?
            (fun p => p.1 == k'))
            = (t.map (fun p => if p.1 == k then (k, v) else p)).find? (fun p => p.1 == k') :=
          List.find?_cons_of_neg _ hak'
        have h2 : ((a :: t).find? (fun p => p.1 == k'))
            = t.find? (fun p => p.1 == k') :=
          List.find?_cons_of_neg _ hak'
        rw [h1, h2]
        exact ih

/-- Python dict semantics of `dictSet`/`dictGet`: after `d[k] = v`,
looking up `k` yields `v` and looking up any other key is unchanged. -/
theorem dictGet_dictSet (m : List (String × String)) (k v k' : String) :
    dictGet (dictSet m k v) k' = if k' = k then some v else dictGet m k' := by
  unfold dictSet dictGet
  by_cases hany : (m.any (fun p => p.1 == k)) = true
  · rw [if_pos hany]
    by_cases hkk : k' = k
    · subst hkk
      rw [find?_mapSet_eq, if_pos hany, if_pos rfl]
      rfl
    · rw [find?_mapSet_ne _ _ _ _ hkk, if_neg hkk]
  · rw [if_neg hany]
    rw [List.find?_append]
    by_cases hkk : k' = k
    · subst hkk
      have hf : m.any (fun p => p.1 == k') = false := Bool.eq_false_iff.mpr hany
      have hnone : m.find? (fun p => p.1 == k') = none := by
        rw [List.find?_eq_none]
        exact List.any_eq_false.mp hf
      rw [hnone, if_pos rfl]
      simp
    · have h1 : (([(k, v)] : List (String × String)).find? (fun p => p.1 == k')) = none := by
        rw [List.find?_eq_none]
        intro x hx
        simp at hx
        subst hx
        simp [Ne.symm hkk]
      rw [h1, if_neg hkk]
      cases m.find? (fun p => p.1 == k') <;> rfl

/-- In a list sorted by `evLe`, an element that is a member and strictly
above every other member (no `evLe` back-edge) is the last element. -/
theorem sorted_getLast?_eq_max (L : List StoredEvent) (ev : StoredEvent)
    (hsort : L.Sorted evLe) (hmem : ev ∈ L)
    (hmax : ∀ z ∈ L, z ≠ ev → ¬ evLe ev z) : L.getLast? = some ev := by
  induction L with
  | nil => simp at hmem
  | cons a t ih =>
    cases t with
    | nil =>
        simp at hmem
        subst hmem
        rfl
    | cons b u =>
        rw [List.getLast?_cons_cons]
        by_cases hev : ev ∈ b :: u
        · exact ih hsort.of_cons hev (fun z hz hne => hmax z (List.mem_cons_of_mem _ hz) hne)
        · have hea : ev = a := by
            rcases List.mem_cons.mp hmem with h | h
            · exact h
            · exact absurd h hev
          have hb : b ≠ ev := fun h => hev (h ▸ List.mem_cons_self _ _)
          have hab : evLe a b := List.rel_of_sorted_cons hsort b (List.mem_cons_self _ _)
          exact absurd (hea ▸ hab)
            (hmax b (List.mem_cons_of_mem _ (List.mem_cons_self _ _)) hb)

/-! ## Claims -/

/-- Claim C1 (code_bug evidence).  The claim says terminal statuses are
sticky: an `update_status` on a job whose status is `COMPLETE`, `FAILED`
or `CANCELLED` must leave that status unchanged.  The code has no such
guard: evaluating the worker status-patch endpoint on a job whose current
status is `COMPLETE` with a redelivered `PROCESSING` report overwrites the
terminal status. -/
theorem update_status_overwrites_terminal :
    (getJob completeJobState "j1").map (fun j => j.status) = some .COMPLETE
    ∧ (getJob (update_job_status completeJobState 6 "j1" .PROCESSING none []).2 "j1").map
        (fun j => j.status) = some .PROCESSING
    ∧ (update_status completeJobState 6 "j1" .PROCESSING none).1.map (fun j => j.status)
        = some .PROCESSING
    ∧ JobStatus.PROCESSING ≠ JobStatus.COMPLETE := by
  refine ⟨by decide, by decide, by decide, by decide⟩

/-- Claim C3 (code_bug evidence).  The claim says a failure of the
synchronous status report is logged and swallowed, never changing the
message-level outcome and never escaping `handle_job`.  In the code,
`StatusReporter.update` raises on a non-2xx response and `handle_job` only
catches exceptions around the Processor call:
(a) if the initial `PROCESSING` report raises, the exception escapes
`handle_job` (crashing `worker_loop`) and the message is neither acked nor
requeued nor dead-lettered — whereas with the same message and a working
reporter (b) the message is acked; and (c) if only the `COMPLETE` report
raises, the successfully processed message is requeued instead of acked. -/
theorem status_report_failure_escapes :
    handle_job defaultWorkerConfig (.success "t" "[]")
        (fun n => if n = 0 then some "HTTP 500" else none) sampleMsg
      = ⟨[], none, false, true⟩
    ∧ (handle_job defaultWorkerConfig (.success "t" "[]") reportOk sampleMsg).action
        = some .ack
    ∧ (handle_job defaultWorkerConfig (.success "t" "[]") reportOk sampleMsg).escaped
        = false
    ∧ (handle_job defaultWorkerConfig (.success "t" "[]")
        (fun n => if n = 1 then some "HTTP 500" else none) sampleMsg).action
        ≠ some .ack
    ∧ (handle_job defaultWorkerConfig (.success "t" "[]")
        (fun n => if n = 1 then some "HTTP 500" else none) sampleMsg).action
        = some (.requeue 1 (calculate_backoff defaultWorkerConfig 1)) := by
  refine ⟨by decide, by decide, by decide, by decide, rfl⟩

/-- Claim C8: a delivered message whose payload lacks a (truthy)
`source_uri` is reported `FAILED` with detail `"Missing source_uri"` and
dead-lettered immediately — for every pipeline behaviour (the Processor is
not invoked), every configuration, and every `attempts` value — provided
the single `FAILED` report call itself succeeds. -/
theorem malformed_payload_dead_letter (cfg : WorkerConfig)
    (pipeline : PipelineResult) (rFail : Nat → Option String)
    (msg : QueueMessage) (hsrc : truthy msg.source_uri = false)
    (hr : rFail 0 = none) :
    handle_job cfg pipeline rFail msg =
      ⟨[⟨strOr msg.job_id "unknown", .FAILED, some "Missing source_uri", []⟩],
        some (.deadLetter (some "Missing source_uri")), false, false⟩ := by
  unfold handle_job
  rw [hsrc]
  simp [hr]

/-- Closed witness for `malformed_payload_dead_letter`: a message with no
`source_uri` and `attempts = 7` is dead-lettered without invoking the
Processor. -/
theorem malformed_payload_dead_letter_witness :
    truthy (none : Option String) = false
    ∧ handle_job defaultWorkerConfig (.success "t" "[]") reportOk
        ⟨"m9", some "j9", some "pdf", none, 7⟩ =
      ⟨[⟨"j9", .FAILED, some "Missing source_uri", []⟩],
        some (.deadLetter (some "Missing source_uri")), false, false⟩ :=
  ⟨by decide,
    malformed_payload_dead_letter defaultWorkerConfig (.success "t" "[]") reportOk
      ⟨"m9", some "j9", some "pdf", none, 7⟩ (by decide) (by decide)⟩

/-- Claim C4: every requeued failure is scheduled with delay
`min(BASE * MULTIPLIER ^ (nextAttempt - 1), MAX_DELAY)` where
`nextAttempt = attempts + 1`; with the default configuration
(`BASE=5, MULTIPLIER=2, MAX=60`) failures on delivery attempts 1, 2, 3
(`attempts` 0, 1, 2) are requeued with delays 5, 10 and 20 seconds. -/
theorem requeue_backoff_formula :
    (∀ (cfg : WorkerConfig) (msg : QueueMessage) (err : String),
      truthy msg.source_uri = true →
      0 ≤ msg.attempts →
      msg.attempts + 1 ≤ (cfg.max_retries : ℤ) →
      (handle_job cfg (.failure err) reportOk msg).action =
        some (.requeue (msg.attempts + 1)
          (min (cfg.backoff_base * cfg.backoff_multiplier ^ (msg.attempts + 1 - 1).toNat)
            cfg.backoff_max)))
    ∧ calculate_backoff defaultWorkerConfig 1 = 5
    ∧ calculate_backoff defaultWorkerConfig 2 = 10
    ∧ calculate_backoff defaultWorkerConfig 3 = 20 := by
  refine ⟨?_, ?_, ?_, ?_⟩
  · intro cfg msg err hsrc hnn hle
    unfold handle_job
    rw [if_neg (by simp [hsrc])]
    show (handleFailure cfg reportOk msg (strOr msg.job_id "unknown") err _ 1).action = _
    unfold handleFailure
    rw [if_neg (by omega)]
    show some _ = _
    unfold calculate_backoff
    rw [min_def]
    have hexp : (max 0 (msg.attempts + 1 - 1)).toNat = (msg.attempts + 1 - 1).toNat := by
      omega
    rw [hexp]
  · unfold calculate_backoff defaultWorkerConfig
    norm_num
  · unfold calculate_backoff defaultWorkerConfig
    show (if (5:ℚ) * 2 ^ (max 0 ((2:ℤ) - 1)).toNat ≤ 60 then
        (5:ℚ) * 2 ^ (max 0 ((2:ℤ) - 1)).toNat else 60) = 10
    have h1 : (max 0 ((2:ℤ) - 1)).toNat = 1 := by omega
    rw [h1]
    norm_num
  · unfold calculate_backoff defaultWorkerConfig
    show (if (5:ℚ) * 2 ^ (max 0 ((3:ℤ) - 1)).toNat ≤ 60 then
        (5:ℚ) * 2 ^ (max 0 ((3:ℤ) - 1)).toNat else 60) = 20
    have h2 : (max 0 ((3:ℤ) - 1)).toNat = 2 := by omega
    rw [h2]
    norm_num

/-- Closed witness for `requeue_backoff_formula`: a first-delivery failure
with the default configuration is requeued with `next_attempt = 1` and
delay `min(5 * 2^0, 60) = 5`. -/
theorem requeue_backoff_formula_witness :
    truthy sampleMsg.source_uri = true
    ∧ (handle_job defaultWorkerConfig (.failure "boom") reportOk sampleMsg).action =
        some (.requeue 1 (min ((5:ℚ) * 2 ^ (0:ℕ)) 60)) :=
  ⟨by decide,
    requeue_backoff_formula.1 defaultWorkerConfig sampleMsg "boom"
      (by decide) (by decide) (by decide)⟩

/-- Claim C2: with `MAX_RETRIES = 3`, a failing delivery with
`attempts ≥ 3` (the 4th delivery of an always-failing job, whose
deliveries carry `attempts` 0, 1, 2, 3) reports `FAILED` with the failure
detail and dead-letters the message, while a failing delivery with
`attempts < 3` is requeued with `next_attempt = attempts + 1` (so
successive deliveries increment `attempts` by one) and is not
dead-lettered. -/
theorem retry_exhaustion_boundary (msg : QueueMessage) (err : String)
    (hsrc : truthy msg.source_uri = true) :
    (3 ≤ msg.attempts →
      handle_job defaultWorkerConfig (.failure err) reportOk msg =
        ⟨[⟨strOr msg.job_id "unknown", .PROCESSING,
            status_detail .PROCESSING (msg.attempts + 1), []⟩,
          ⟨strOr msg.job_id "unknown", .FAILED, some err, []⟩],
          some (.deadLetter (some err)), true, false⟩)
    ∧ (msg.attempts < 3 →
      (handle_job defaultWorkerConfig (.failure err) reportOk msg).action =
        some (.requeue (msg.attempts + 1)
          (calculate_backoff defaultWorkerConfig (msg.attempts + 1)))) := by
  constructor
  · intro hge
    unfold handle_job
    rw [if_neg (by simp [hsrc])]
    show handleFailure _ reportOk msg (strOr msg.job_id "unknown") err _ 1 = _
    unfold handleFailure
    rw [if_pos (show ((defaultWorkerConfig.max_retries : ℕ) : ℤ) < msg.attempts + 1 by
      show (3:ℤ) < _
      omega)]
    rfl
  · intro hlt
    unfold handle_job
    rw [if_neg (by simp [hsrc])]
    show (handleFailure _ reportOk msg (strOr msg.job_id "unknown") err _ 1).action = _
    unfold handleFailure
    rw [if_neg (show ¬ ((defaultWorkerConfig.max_retries : ℕ) : ℤ) < msg.attempts + 1 by
      show ¬ (3:ℤ) < _
      omega)]
    rfl

/-- Closed witness for `retry_exhaustion_boundary`: the 4th delivery
(`attempts = 3`) of an always-failing job is dead-lettered with a `FAILED`
report, and the 3rd delivery (`attempts = 2`) is requeued with
`next_attempt = 3`. -/
theorem retry_exhaustion_boundary_witness :
    truthy ((⟨"m1", some "j1", some "pdf", some "/tmp/x.pdf", 3⟩ :
        QueueMessage)).source_uri = true
    ∧ handle_job defaultWorkerConfig (.failure "boom") reportOk
        ⟨"m1", some "j1", some "pdf", some "/tmp/x.pdf", 3⟩ =
      ⟨[⟨"j1", .PROCESSING, status_detail .PROCESSING 4, []⟩,
        ⟨"j1", .FAILED, some "boom", []⟩],
        some (.deadLetter (some "boom")), true, false⟩
    ∧ (handle_job defaultWorkerConfig (.failure "boom") reportOk
        ⟨"m1", some "j1", some "pdf", some "/tmp/x.pdf", 2⟩).action =
      some (.requeue 3 (calculate_backoff defaultWorkerConfig 3)) :=
  ⟨by decide,
    (retry_exhaustion_boundary ⟨"m1", some "j1", some "pdf", some "/tmp/x.pdf", 3⟩
        "boom" (by decide)).1 (by decide),
    (retry_exhaustion_boundary ⟨"m1", some "j1", some "pdf", some "/tmp/x.pdf", 2⟩
        "boom" (by decide)).2 (by decide)⟩

/-- Claim C10: `_to_message` is total — it is a function into
`RawMessage`, so every stream entry yields a message without raising —
and maps a missing or unparsable `payload` field to the empty JSON object
and a missing or unparsable `attempts` field to `0`.  The stdlib parsers
are parameters; the hypotheses pin down only the two stdlib facts used:
`json.loads("\x7b\x7d")` is the empty object and `int("0") = 0`. -/
theorem to_message_total_defaults {α : Type} (jsonLoads : String → Option α)
    (emptyObj : α) (toInt : String → Option ℤ) (entry_id : String)
    (fields : String → Option String) :
    (to_message jsonLoads emptyObj toInt entry_id fields).message_id = entry_id
    ∧ (jsonLoads "\x7b\x7d" = some emptyObj → fields PAYLOAD_FIELD = none →
        (to_message jsonLoads emptyObj toInt entry_id fields).payload = emptyObj)
    ∧ (∀ s, fields PAYLOAD_FIELD = some s → jsonLoads s = none →
        (to_message jsonLoads emptyObj toInt entry_id fields).payload = emptyObj)
    ∧ (toInt "0" = some 0 → fields ATTEMPT_FIELD = none →
        (to_message jsonLoads emptyObj toInt entry_id fields).attempts = 0)
    ∧ (∀ s, fields ATTEMPT_FIELD = some s → toInt s = none →
        (to_message jsonLoads emptyObj toInt entry_id fields).attempts = 0) := by
  refine ⟨rfl, ?_, ?_, ?_, ?_⟩
  · intro hjson hf
    simp [to_message, hf, hjson]
  · intro s hf hparse
    simp [to_message, hf, hparse]
  · intro hint hf
    simp [to_message, hf, hint]
  · intro s hf hparse
    simp [to_message, hf, hparse]

/-- Closed witness for `to_message_total_defaults`, at a concrete toy
parser pair: an entry with no fields decodes to the empty payload and
`attempts = 0`, and an entry whose fields are unparsable decodes the same
way. -/
theorem to_message_total_defaults_witness :
    (to_message (fun s => if s = "\x7b\x7d" then some () else none) ()
        (fun s => if s = "0" then some 0 else none) "1-0" (fun _ => none)).payload = ()
    ∧ (to_message (fun s => if s = "\x7b\x7d" then some () else none) ()
        (fun s => if s = "0" then some 0 else none) "1-0" (fun _ => none)).attempts = 0
    ∧ (to_message (fun s => if s = "\x7b\x7d" then some () else none) ()
        (fun s => if s = "0" then some 0 else none) "1-0"
        (fun _ => some "not json")).payload = ()
    ∧ (to_message (fun s => if s = "\x7b\x7d" then some () else none) ()
        (fun s => if s = "0" then some 0 else none) "1-0"
        (fun _ => some "not json")).attempts = 0 :=
  ⟨(to_message_total_defaults _ () _ "1-0" _).2.1 (by decide) rfl,
    (to_message_total_defaults _ () _ "1-0" _).2.2.2.1 (by decide) rfl,
    (to_message_total_defaults _ () _ "1-0" _).2.2.1 "not json" rfl (by decide),
    (to_message_total_defaults _ () _ "1-0" _).2.2.2.2 "not json" rfl (by decide)⟩

/-- Claim C9: `get_job_result` answers 404 for an unknown job id, 409 for
an existing job in any non-terminal status, and exactly for the terminal
statuses `COMPLETE`, `FAILED`, `CANCELLED` returns the artefact map with
`translated_text_uri` taken from the artefacts. -/
theorem result_endpoint_terminal_gate (s : StoreState) (job_id : String) :
    (getJob s job_id = none → get_job_result s job_id = .httpError 404 "Job not found")
    ∧ (∀ j, getJob s job_id = some j →
        (isTerminal j.status = true →
          get_job_result s job_id =
            .ok ⟨j.job_id, j.status, dictGet j.artefacts "translated_text", j.artefacts⟩)
        ∧ (isTerminal j.status = false →
          get_job_result s job_id = .httpError 409 "Job not finished"))
    ∧ (∀ st : JobStatus, isTerminal st = true ↔
        (st = .COMPLETE ∨ st = .FAILED ∨ st = .CANCELLED)) := by
  refine ⟨?_, ?_, ?_⟩
  · intro h
    unfold get_job_result
    rw [h]
  · intro j hj
    constructor
    · intro hterm
      unfold get_job_result
      rw [hj]
      simp [hterm]
    · intro hterm
      unfold get_job_result
      rw [hj]
      simp [hterm]
  · intro st
    cases st <;> simp [isTerminal]

/-- Closed witness for `result_endpoint_terminal_gate`: on the store
holding the completed job `j1`, the result endpoint returns the artefact
map for `j1` and 404 for an unknown id. -/
theorem result_endpoint_terminal_gate_witness :
    get_job_result completeJobState "j1"
      = .ok ⟨"j1", .COMPLETE, some "hi", [("translated_text", "hi")]⟩
    ∧ get_job_result completeJobState "missing" = .httpError 404 "Job not found" :=
  ⟨by
    have h := ((result_endpoint_terminal_gate completeJobState "j1").2.1
      ⟨"j1", .COMPLETE, some "Translation finished", 0, 5, [("translated_text", "hi")]⟩
      (by decide)).1 (by decide)
    rw [h]
    decide,
   (result_endpoint_terminal_gate completeJobState "missing").1 (by decide)⟩

/-- Claim C5: on an existing job, `update_status` sets status, detail and
`updated_at := now`, appends exactly one event carrying the same status
and detail with `created_at` equal to the new `updated_at`, and returns
the post-update job (both as return value and on the next lookup); on an
unknown `job_id` it returns `none` and leaves the state — jobs, events and
the event counter — untouched. -/
theorem update_status_contract (s : StoreState) (now : Nat) (job_id : String)
    (st : JobStatus) (d : Option String) :
    (getJob s job_id = none → update_status s now job_id st d = (none, s))
    ∧ (∀ j, getJob s job_id = some j →
        (update_status s now job_id st d).1
          = some { j with status := st, detail := d, updated_at := now }
        ∧ (update_status s now job_id st d).2.events
          = s.events ++ [⟨s.next_event_id, job_id, st, d, now⟩]
        ∧ (update_status s now job_id st d).2.next_event_id = s.next_event_id + 1
        ∧ getJob (update_status s now job_id st d).2 job_id
          = some { j with status := st, detail := d, updated_at := now }) := by
  constructor
  · intro h
    unfold update_status
    rw [h]
  · intro j hj
    have hj2 : s.jobs.find? (fun x => x.job_id == job_id) = some j := hj
    have hpred : (j.job_id == job_id) = true := by
      have h := List.find?_some hj2
      exact h
    have hs : (s.jobs.find? (fun x => x.job_id == job_id)).isSome = true := by
      rw [hj2]
      rfl
    refine ⟨?_, ?_, ?_, ?_⟩
    · unfold update_status
      rw [hj]
    · unfold update_status
      rw [hj]
      rfl
    · unfold update_status
      rw [hj]
      rfl
    · unfold update_status
      rw [hj]
      show getJob (appendEvent _ job_id st d now) job_id = _
      unfold appendEvent getJob
      exact find?_map_replace s.jobs job_id _ hpred hs

/-- Closed witness for `update_status_contract`: updating the completed
job `j1` at time 9 returns the rewritten job and appends the matching
event, while updating an unknown id changes nothing. -/
theorem update_status_contract_witness :
    (update_status completeJobState 9 "j1" .FAILED (some "x")).1
      = some ⟨"j1", .FAILED, some "x", 0, 9, [("translated_text", "hi")]⟩
    ∧ (update_status completeJobState 9 "j1" .FAILED (some "x")).2.events
      = completeJobState.events ++ [⟨2, "j1", .FAILED, some "x", 9⟩]
    ∧ update_status completeJobState 9 "missing" .FAILED none
      = (none, completeJobState) :=
  ⟨((update_status_contract completeJobState 9 "j1" .FAILED (some "x")).2
      ⟨"j1", .COMPLETE, some "Translation finished", 0, 5, [("translated_text", "hi")]⟩
      (by decide)).1,
   ((update_status_contract completeJobState 9 "j1" .FAILED (some "x")).2
      ⟨"j1", .COMPLETE, some "Translation finished", 0, 5, [("translated_text", "hi")]⟩
      (by decide)).2.1,
   (update_status_contract completeJobState 9 "missing" .FAILED none).1 (by decide)⟩

/-- Claim C7: on an existing job, `set_artefact` replaces exactly the
named key in the artefacts map and sets `updated_at := now`, while the
job's status, detail and `submitted_at` (visible in the record update),
every other artefact key, and the event history are unchanged — no event
is appended. -/
theorem set_artefact_frame (s : StoreState) (now : Nat) (job_id name uri : String) :
    (getJob s job_id = none → set_artefact s now job_id name uri = (none, s))
    ∧ (∀ j, getJob s job_id = some j →
        (set_artefact s now job_id name uri).1
          = some { j with artefacts := dictSet j.artefacts name uri, updated_at := now }
        ∧ (set_artefact s now job_id name uri).2.events = s.events
        ∧ (set_artefact s now job_id name uri).2.next_event_id = s.next_event_id
        ∧ getJob (set_artefact s now job_id name uri).2 job_id
          = some { j with artefacts := dictSet j.artefacts name uri, updated_at := now }
        ∧ dictGet (dictSet j.artefacts name uri) name = some uri
        ∧ (∀ k, k ≠ name →
            dictGet (dictSet j.artefacts name uri) k = dictGet j.artefacts k)) := by
  constructor
  · intro h
    unfold set_artefact
    rw [h]
  · intro j hj
    have hj2 : s.jobs.find? (fun x => x.job_id == job_id) = some j := hj
    have hpred : (j.job_id == job_id) = true := by
      have h := List.find?_some hj2
      exact h
    have hs : (s.jobs.find? (fun x => x.job_id == job_id)).isSome = true := by
      rw [hj2]
      rfl
    refine ⟨?_, ?_, ?_, ?_, ?_, ?_⟩
    · unfold set_artefact
      rw [hj]
    · unfold set_artefact
      rw [hj]
    · unfold set_artefact
      rw [hj]
    · unfold set_artefact
      rw [hj]
      show getJob _ job_id = _
      unfold getJob
      exact find?_map_replace s.jobs job_id _ hpred hs
    · rw [dictGet_dictSet, if_pos rfl]
    · intro k hk
      rw [dictGet_dictSet, if_neg hk]

/-- Closed witness for `set_artefact_frame`, replaying the merge scenario
of the spec: `set("a","1")` then `set("b","2")` yields the two-key map,
and a later `set("a","3")` overwrites only key `a`; no event is written
throughout. -/
theorem set_artefact_frame_witness :
    (set_artefact completeJobState 6 "j1" "a" "1").1
      = some ⟨"j1", .COMPLETE, some "Translation finished", 0, 6,
          [("translated_text", "hi"), ("a", "1")]⟩
    ∧ ((set_artefact (set_artefact (set_artefact completeJobState 6 "j1" "a" "1").2
          7 "j1" "b" "2").2 8 "j1" "a" "3").2.jobs.map (fun j => j.artefacts))
      = [[("translated_text", "hi"), ("a", "3"), ("b", "2")]]
    ∧ (set_artefact completeJobState 6 "j1" "a" "1").2.events = completeJobState.events :=
  ⟨((set_artefact_frame completeJobState 6 "j1" "a" "1").2
      ⟨"j1", .COMPLETE, some "Translation finished", 0, 5, [("translated_text", "hi")]⟩
      (by decide)).1,
   by decide,
   ((set_artefact_frame completeJobState 6 "j1" "a" "1").2
      ⟨"j1", .COMPLETE, some "Translation finished", 0, 5, [("translated_text", "hi")]⟩
      (by decide)).2.1⟩

/-- Claim C6: `history` returns the job's events sorted ascending by the
`(created_at, id)` pair — `evLe` is exactly that lexicographic order, so
the returned sequence is non-decreasing in it, ties in `created_at` being
broken by the insertion-sequence id — and after a successful
`update_status` (given that event ids are below the autoincrement counter
and the clock did not run backwards) the freshly appended event is the
last entry of `history`, whose status coincides with `get`'s status. -/
theorem history_sorted_and_status_coupled (s : StoreState) (job_id : String) :
    (history s job_id).Sorted evLe
    ∧ (∀ (now : Nat) (st : JobStatus) (d : Option String) (j : StoredJob),
        (∀ e ∈ s.events, e.id < s.next_event_id) →
        (∀ e ∈ s.events, e.created_at ≤ now) →
        getJob s job_id = some j →
        (history (update_status s now job_id st d).2 job_id).getLast?
            = some ⟨s.next_event_id, job_id, st, d, now⟩
        ∧ (getJob (update_status s now job_id st d).2 job_id).map (fun x => x.status)
            = some st
        ∧ ((history (update_status s now job_id st d).2 job_id).getLast?).map
              (fun e => e.status)
            = (getJob (update_status s now job_id st d).2 job_id).map
              (fun x => x.status)) := by
  constructor
  · exact List.sorted_insertionSort evLe _
  · intro now st d j hWF hclock hj
    have hj2 : s.jobs.find? (fun x => x.job_id == job_id) = some j := hj
    have hpred : (j.job_id == job_id) = true := by
      have h := List.find?_some hj2
      exact h
    have hs : (s.jobs.find? (fun x => x.job_id == job_id)).isSome = true := by
      rw [hj2]
      rfl
    have hgetJob : getJob (update_status s now job_id st d).2 job_id
        = some { j with status := st, detail := d, updated_at := now } := by
      unfold update_status
      rw [hj]
      show getJob (appendEvent _ job_id st d now) job_id = _
      unfold appendEvent getJob
      exact find?_map_replace s.jobs job_id _ hpred hs
    have hevents : (update_status s now job_id st d).2.events
        = s.events ++ [⟨s.next_event_id, job_id, st, d, now⟩] := by
      unfold update_status
      rw [hj]
      rfl
    have hfilter : ((s.events ++ [(⟨s.next_event_id, job_id, st, d, now⟩ : StoredEvent)]).filter
        (fun e => e.job_id == job_id))
        = s.events.filter (fun e => e.job_id == job_id)
          ++ [⟨s.next_event_id, job_id, st, d, now⟩] := by
      rw [List.filter_append]
      simp
    have hlast : (history (update_status s now job_id st d).2 job_id).getLast?
        = some ⟨s.next_event_id, job_id, st, d, now⟩ := by
      unfold history
      rw [hevents, hfilter]
      apply sorted_getLast?_eq_max
      · exact List.sorted_insertionSort evLe _
      · exact (List.perm_insertionSort evLe _).mem_iff.mpr (by simp)
      · intro z hz hne
        have hz2 : z ∈ s.events.filter (fun e => e.job_id == job_id)
            ++ [(⟨s.next_event_id, job_id, st, d, now⟩ : StoredEvent)] :=
          (List.perm_insertionSort evLe _).mem_iff.mp hz
        rcases List.mem_append.mp hz2 with hzf | hzev
        · have hzev' : z ∈ s.events := (List.mem_filter.mp hzf).1
          have h1 := hWF z hzev'
          have h2 := hclock z hzev'
          intro hle
          unfold evLe at hle
          dsimp only at hle
          omega
        · simp at hzev
          exact absurd hzev hne
    refine ⟨hlast, ?_, ?_⟩
    · rw [hgetJob]
      rfl
    · rw [hlast, hgetJob]
      rfl

/-- Closed witness for `history_sorted_and_status_coupled`: on the store
holding the completed job `j1`, the history is sorted, and after
`update_status` at time 9 the last history entry is the new event and its
status equals the job's current status. -/
theorem history_sorted_and_status_coupled_witness :
    (history completeJobState "j1").Sorted evLe
    ∧ (history (update_status completeJobState 9 "j1" .PROCESSING none).2 "j1").getLast?
        = some ⟨2, "j1", .PROCESSING, none, 9⟩
    ∧ (getJob (update_status completeJobState 9 "j1" .PROCESSING none).2 "j1").map
        (fun x => x.status) = some .PROCESSING :=
  ⟨(history_sorted_and_status_coupled completeJobState "j1").1,
   ((history_sorted_and_status_coupled completeJobState "j1").2 9 .PROCESSING none
      ⟨"j1", .COMPLETE, some "Translation finished", 0, 5, [("translated_text", "hi")]⟩
      (by decide) (by decide) (by decide)).1,
   ((history_sorted_and_status_coupled completeJobState "j1").2 9 .PROCESSING none
      ⟨"j1", .COMPLETE, some "Translation finished", 0, 5, [("translated_text", "hi")]⟩
      (by decide) (by decide) (by decide)).2.1⟩

end Scanslator
